import Mathlib

/-!
Shallow embedding of the emulated (Win32) backend of the xpthread library
(src/xpthread.c, include/xpthread.h) and verification of its specified
behaviour.

Modelling conventions:
* C pointers passed by callers are modelled by a `Bool` saying whether the
  pointer is non-null, together with (where the callee may write through it)
  the value found in or written to the pointed-to memory.
* `void *` values (thread return values, thread arguments) are modelled as
  natural numbers (the address value); `0` is the null pointer.
* Win32 `DWORD` quantities are natural numbers; the 32-bit truncation of a
  pointer cast to `unsigned` is taken modulo `2 ^ 64` / `2 ^ 32` explicitly.
* The platform scheduler and lock are abstracted by a predicate
  `tryLock : Nat → Bool` giving the result of the i-th
  `TryEnterCriticalSection` call made by one `xpthread_mutex_timedlock`
  invocation.
* Platform primitives that are not part of the repository
  (`InitOnceExecuteOnce`) are modelled from their documented semantics,
  which section 4.2 of the design document restates.
-/

namespace XPThread

/-- Status code 0: success. errno codes as used by the implementation
(values are the conventional errno numbers; only their distinctness
matters to the development). -/
def EAGAIN : Int := 11

/-- Out-of-memory errno code. -/
def ENOMEM : Int := 12

/-- Busy errno code, returned by try-lock on contention. -/
def EBUSY : Int := 16

/-- Invalid-argument errno code. -/
def EINVAL : Int := 22

/-- Unsupported-operation errno code (ENOTSUP); named by the specification
as the "unsupported" member of the status set. The implementation never
produces it. -/
def ENOTSUP : Int := 95

/-- Timed-out errno code, returned by timed lock at deadline expiry. -/
def ETIMEDOUT : Int := 110

/-- Cancellation-enabled state constant from xpthread.h (Win32 branch). -/
def XPTHREAD_CANCEL_ENABLE : Int := 1

/-- Cancellation-disabled state constant from xpthread.h (Win32 branch). -/
def XPTHREAD_CANCEL_DISABLE : Int := 0

/-- Win32 INFINITE timeout sentinel, a DWORD with all bits set. -/
def INFINITE : Nat := 4294967295

/-- A C `struct timespec` value as read and written by the library:
seconds and nanoseconds as signed integers. -/
structure Timespec where
  tv_sec : Int
  tv_nsec : Int
  deriving DecidableEq, Repr

/-- Embedding of `xpthread_get_realtime` (src/xpthread.c lines 258-271,
Win32 branch). `quadPart` is the 64-bit FILETIME tick count (100 ns units
since 1601). The C code computes
`t = uli.QuadPart - 116444736000000000ULL` in wrapping unsigned 64-bit
arithmetic, then `tv_sec = t / 10000000` and
`tv_nsec = (t % 10000000) * 100`. -/
def xpthread_get_realtime (quadPart : Nat) : Timespec :=
  let t : Nat := (quadPart + (2 ^ 64 - 116444736000000000)) % 2 ^ 64
  { tv_sec := (t / 10000000 : Nat), tv_nsec := ((t % 10000000) * 100 : Nat) }

/-- The per-thread record `xpthread_win_ctx` (src/xpthread.c lines 46-51),
without the `start_routine`/`arg` fields (those are modelled by the entry
behaviour below). `calloc` zero-fills it, so both fields start cleared. -/
structure XpthreadWinCtx where
  cancel_requested : Bool
  retval : Nat
  deriving DecidableEq, Repr

/-- A freshly `calloc`-ed `xpthread_win_ctx`: all fields zero. -/
def callocCtx : XpthreadWinCtx := { cancel_requested := false, retval := 0 }

/-- How the entry function of a created thread terminates: by returning a
value `v`, or by calling `xpthread_exit v`. -/
inductive EntryBehavior where
  | returns (v : Nat)
  | exits (v : Nat)
  deriving DecidableEq, Repr

/-- Embedding of `xpthread_exit` (src/xpthread.c lines 341-349, Win32
branch): `unsigned code = 0; if (retval) code = (unsigned)(size_t)retval;
_endthreadex(code);`. Result: the 32-bit thread exit code. The per-thread
context record is not touched. -/
def xpthread_exit_code (retval : Nat) : Nat :=
  if retval ≠ 0 then retval % 2 ^ 32 else 0

/-- Embedding of `thread_wrapper` (src/xpthread.c lines 65-72) run over an
entry function with the given termination behaviour, starting from context
record `ctx`. On a normal return the wrapper stores the returned value in
`ctx->retval` and exits with code 0; if the entry function calls
`xpthread_exit v` the thread terminates inside that call, so the wrapper's
store never executes and the context record keeps its previous `retval`.
Result: the final context record and the thread's exit code. -/
def thread_wrapper (ctx : XpthreadWinCtx) : EntryBehavior → XpthreadWinCtx × Nat
  | .returns v => ({ ctx with retval := v }, 0)
  | .exits v => (ctx, xpthread_exit_code v)

/-- Embedding of `xpthread_join` (src/xpthread.c lines 114-125, Win32
branch). After waiting, the code reads the target's exit code into a local
that is never used again, and then runs
`if (retval && xpthread_self_ctx) *retval = xpthread_self_ctx->retval;`
where `xpthread_self_ctx` is the JOINING thread's thread-local context
(`none` for a thread not created through this library, e.g. `main`).
Arguments: the joiner's own thread-local context, whether the `retval`
out-pointer is non-null, the value previously stored at `*retval`, the
target thread's context record and exit code. Result: the final contents
of `*retval` and the returned status (always 0). -/
def xpthread_join (joinerCtx : Option XpthreadWinCtx) (retvalNonNull : Bool)
    (retvalMem : Nat) (targetCtx : XpthreadWinCtx) (targetExitCode : Nat) :
    Nat × Int :=
  match retvalNonNull, joinerCtx with
  | true, some c => (c.retval, 0)
  | _, _ => (retvalMem, 0)

/-- Embedding of `xpthread_cancel` (src/xpthread.c lines 190-199, Win32
branch): `if (!th) return EINVAL; return 0;`. The target thread's context
record is passed through so the (absent) effect on its
`cancel_requested` flag is visible: the code never writes it. -/
def xpthread_cancel (thNonNull : Bool) (target : XpthreadWinCtx) :
    Int × XpthreadWinCtx :=
  if !thNonNull then (EINVAL, target) else (0, target)

/-- Embedding of `xpthread_testcancel` (src/xpthread.c lines 201-208, Win32
branch): the calling thread terminates via `_endthreadex(0)` exactly when
it has a thread-local context and that context's `cancel_requested` flag
is set. The per-thread cancellation state maintained by
`xpthread_setcancelstate` is never consulted, so it is not an input.
Result: `true` iff the caller terminates. -/
def xpthread_testcancel (selfCtx : Option XpthreadWinCtx) : Bool :=
  match selfCtx with
  | some c => c.cancel_requested
  | none => false

/-- Embedding of `xpthread_setcancelstate` (src/xpthread.c lines 143-161,
generic non-Android branch, also compiled on Win32): stores the previous
state through `oldstate` when non-null and installs the new state.
Result: (status, new per-thread cancel state, value written through
`oldstate` if any). -/
def xpthread_setcancelstate (state : Int) (oldstateNonNull : Bool)
    (cancel_state : Int) : Int × Int × Option Int :=
  (0, state, if oldstateNonNull then some cancel_state else none)

/-- Embedding of `xpthread_setcanceltype` (src/xpthread.c lines 163-180,
Win32 branch): same shape as `xpthread_setcancelstate`. -/
def xpthread_setcanceltype (type_ : Int) (oldtypeNonNull : Bool)
    (cancel_type : Int) : Int × Int × Option Int :=
  (0, type_, if oldtypeNonNull then some cancel_type else none)

/-- Whether a `xpthread_once_t` / `INIT_ONCE` control has already completed
its one-time execution. -/
inductive OnceState where
  | pending
  | done
  deriving DecidableEq, Repr

/-- Embedding of `once_wrapper` (src/xpthread.c lines 57-62). The `ctx`
argument is the address of a stack variable and hence never null, so the
`!ctx || !ctx->fn` guard reduces to the null test on the wrapped function
pointer; when the pointer is non-null the wrapper invokes it and returns
TRUE. Result: (wrapper result, whether the initialising function ran). -/
def once_wrapper (fnNonNull : Bool) : Bool × Bool :=
  if fnNonNull then (true, true) else (false, false)

/-- Modelled from the platform's documented semantics of
`InitOnceExecuteOnce` (synchronous, no flags), which section 4.2 of the
design document restates: a call on an already-completed control succeeds
without running the callback; the engaging call runs the callback, and the
control completes exactly when the callback returns TRUE, which is also
the call's result. Result: (call result, new control state, whether the
initialising function ran). -/
def InitOnceExecuteOnce (st : OnceState) (fnNonNull : Bool) :
    Bool × OnceState × Bool :=
  match st with
  | .done => (true, .done, false)
  | .pending =>
      let r := once_wrapper fnNonNull
      if r.1 then (true, .done, r.2) else (false, .pending, r.2)

/-- Embedding of `xpthread_once` (src/xpthread.c lines 75-83, Win32
branch): wraps the routine, calls `InitOnceExecuteOnce`, and returns
`result ? 0 : -1`. Result: (status, new control state, whether the
initialising function ran). -/
def xpthread_once (st : OnceState) (fnNonNull : Bool) :
    Int × OnceState × Bool :=
  let r := InitOnceExecuteOnce st fnNonNull
  (if r.1 then 0 else -1, r.2.1, r.2.2)

/-- Embedding of `xpthread_create` (src/xpthread.c lines 85-112, Win32
branch): returns ENOMEM when `calloc` fails, EAGAIN when `_beginthreadex`
fails, 0 otherwise. -/
def xpthread_create (callocOk spawnOk : Bool) : Int :=
  if !callocOk then ENOMEM else if !spawnOk then EAGAIN else 0

/-- Embedding of `xpthread_detach` (src/xpthread.c lines 135-141, Win32
branch): `return CloseHandle(thread) ? 0 : -1;`. -/
def xpthread_detach (closeOk : Bool) : Int :=
  if closeOk then 0 else -1

/-- Embedding of `xpthread_mutex_init` (src/xpthread.c lines 210-221,
Win32 branch with `_WIN32_WINNT >= 0x0403`): ENOMEM when
`InitializeCriticalSectionAndSpinCount` fails, 0 otherwise. -/
def xpthread_mutex_init (initOk : Bool) : Int :=
  if !initOk then ENOMEM else 0

/-- Embedding of `xpthread_mutex_destroy` (Win32 branch): always 0. -/
def xpthread_mutex_destroy : Int := 0

/-- Embedding of `xpthread_mutex_lock` (Win32 branch): always 0. -/
def xpthread_mutex_lock : Int := 0

/-- Embedding of `xpthread_mutex_unlock` (Win32 branch): always 0. -/
def xpthread_mutex_unlock : Int := 0

/-- Embedding of `xpthread_mutex_trylock` (src/xpthread.c lines 250-256,
Win32 branch): 0 when `TryEnterCriticalSection` succeeds, EBUSY
otherwise. -/
def xpthread_mutex_trylock (tryOk : Bool) : Int :=
  if tryOk then 0 else EBUSY

/-- Embedding of `xpthread_mutex_getprioceiling` (src/xpthread.c lines
313-321, Win32 branch): EINVAL when the out-pointer is null; otherwise
writes 0 through it and succeeds. Result: (status, value written through
`prioceiling` if any). -/
def xpthread_mutex_getprioceiling (prioceilingNonNull : Bool) :
    Int × Option Int :=
  if !prioceilingNonNull then (EINVAL, none) else (0, some 0)

/-- Embedding of `xpthread_mutex_setprioceiling` (src/xpthread.c lines
323-330, Win32 branch): writes 0 through `old_ceiling` when non-null and
always succeeds. Result: (status, value written through `old_ceiling` if
any). -/
def xpthread_mutex_setprioceiling (prioceiling : Int)
    (oldCeilingNonNull : Bool) : Int × Option Int :=
  (0, if oldCeilingNonNull then some 0 else none)

/-- Embedding of `xpthread_mutex_consistent` (src/xpthread.c lines
332-339, Win32 branch): always 0. -/
def xpthread_mutex_consistent : Int := 0

/-- Two's-complement narrowing of an integer to the 32-bit `long` of the
Win32 target: the value congruent to `x` modulo `2 ^ 32` lying in
`[-2147483648, 2147483648)` (the literals are `2 ^ 31` and `2 ^ 32`). -/
def wrap32 (x : Int) : Int :=
  (x + 2147483648) % 4294967296 - 2147483648

/-- The remaining-milliseconds computation of `xpthread_mutex_timedlock`
(src/xpthread.c lines 282-289). Both `sec_diff` and `nsec_diff` are
declared `long`, which is 32 bits on the Win32 target, so every value
stored into them is narrowed with `wrap32`: the 64-bit `time_t` second
difference on assignment to `sec_diff` (the 64-bit subtraction itself is
taken exact, since wrapping it would need second magnitudes of at least
`2 ^ 63`, far beyond what the library's time source can produce), the
nanosecond difference, and the results of the borrow updates
`sec_diff -= 1` and `nsec_diff += 1000000000`. Finally
`total_ms64 = (int64_t)sec_diff * 1000 + nsec_diff / 1000000` with C
truncating division, exact in 64 bits. -/
def computeRemainingMs (a now : Timespec) : Int :=
  let sec0 : Int := wrap32 (a.tv_sec - now.tv_sec)
  let nsec0 : Int := wrap32 (a.tv_nsec - now.tv_nsec)
  let sec_diff : Int := if nsec0 < 0 then wrap32 (sec0 - 1) else sec0
  let nsec_diff : Int := if nsec0 < 0 then wrap32 (nsec0 + 1000000000) else nsec0
  sec_diff * 1000 + Int.tdiv nsec_diff 1000000

/-- The polling loop of `xpthread_mutex_timedlock`: `tryLock i` is the
result of the i-th `TryEnterCriticalSection` call of this invocation.
`pollLoop tryLock idx iters` runs `iters` loop iterations whose attempts
are numbered from `idx`, returning the number of the first successful
attempt, or `none` when every attempt fails. -/
def pollLoop (tryLock : Nat → Bool) : Nat → Nat → Option Nat
  | idx, iters + 1 => if tryLock idx then some idx else pollLoop tryLock (idx + 1) iters
  | _, 0 => none

/-- The loop phase of `xpthread_mutex_timedlock` (src/xpthread.c lines
295-306): `timeoutMs` iterations of try-then-sleep-1ms, then one final
immediate attempt. Result: (status, number of `TryEnterCriticalSection`
calls performed). -/
def runPollPhase (tryLock : Nat → Bool) (timeoutMs : Nat) : Int × Nat :=
  match pollLoop tryLock 0 timeoutMs with
  | some j => (0, j + 1)
  | none => if tryLock timeoutMs then (0, timeoutMs + 1) else (ETIMEDOUT, timeoutMs + 1)

/-- Embedding of `xpthread_mutex_timedlock` (src/xpthread.c lines 274-311,
Win32 branch). `now` is the time sampled by `xpthread_get_realtime` inside
the call. In the source, the local `DWORD timeout_ms` is assigned ONLY in
the `abstime == NULL` branch (`timeout_ms = INFINITE`); in the non-null
future-deadline path it is left unassigned, so the loop bound is the
indeterminate value the variable happens to hold, made explicit here as
the extra argument `timeoutMsJunk`. Result: (status, number of
`TryEnterCriticalSection` calls performed). -/
def xpthread_mutex_timedlock (tryLock : Nat → Bool) (now : Timespec)
    (abstime : Option Timespec) (timeoutMsJunk : Nat) : Int × Nat :=
  match abstime with
  | some a =>
      if computeRemainingMs a now ≤ 0 then (ETIMEDOUT, 0)
      else runPollPhase tryLock timeoutMsJunk
  | none => runPollPhase tryLock INFINITE

/-- The list of status codes the specification allows the public interface
to return. -/
def statusSet : List Int := [0, ETIMEDOUT, EBUSY, EINVAL, ENOMEM, EAGAIN, ENOTSUP]

/-- The status codes the implementation actually uses: the specified set
extended with the bare -1 failure indicator. -/
def extStatusSet : List Int := -1 :: statusSet

theorem pollLoop_eq_none_iff (tryLock : Nat → Bool) :
    ∀ (iters idx : Nat),
      pollLoop tryLock idx iters = none ↔
        ∀ i, idx ≤ i → i < idx + iters → tryLock i = false := by
  intro iters
  induction iters with
  | zero =>
      intro idx
      simp only [pollLoop]
      constructor
      · intro _ i h1 h2
        omega
      · intro _
        trivial
  | succ m ih =>
      intro idx
      cases hb : tryLock idx with
      | true =>
          simp only [pollLoop]
          rw [if_pos hb]
          constructor
          · intro hc
            cases hc
          · intro hall
            have h2 := hall idx le_rfl (by omega)
            rw [hb] at h2
            cases h2
      | false =>
          simp only [pollLoop]
          rw [if_neg (by simp [hb])]
          rw [ih (idx + 1)]
          constructor
          · intro hall i h1 h2
            rcases Nat.lt_or_ge idx i with hlt | hge
            · exact hall i hlt (by omega)
            · have hEq : i = idx := by omega
              rw [hEq]
              exact hb
          · intro hall i h1 h2
            exact hall i (by omega) (by omega)

theorem pollLoop_eq_some (tryLock : Nat → Bool) :
    ∀ (iters idx j : Nat), pollLoop tryLock idx iters = some j →
      tryLock j = true ∧ idx ≤ j ∧ j < idx + iters := by
  intro iters
  induction iters with
  | zero =>
      intro idx j h
      simp only [pollLoop] at h
      exact Option.noConfusion h
  | succ m ih =>
      intro idx j h
      simp only [pollLoop] at h
      cases hb : tryLock idx with
      | true =>
          rw [if_pos hb] at h
          obtain rfl : idx = j := Option.some.inj h
          exact ⟨hb, le_rfl, by omega⟩
      | false =>
          rw [if_neg (by simp [hb])] at h
          obtain ⟨h1, h2, h3⟩ := ih (idx + 1) j h
          exact ⟨h1, by omega, by omega⟩

theorem runPollPhase_status (tryLock : Nat → Bool) (timeoutMs : Nat) :
    (runPollPhase tryLock timeoutMs).1 = 0 ∨
      (runPollPhase tryLock timeoutMs).1 = ETIMEDOUT := by
  unfold runPollPhase
  split
  · left
    rfl
  · split
    · left
      rfl
    · right
      rfl

theorem runPollPhase_timedout_iff (tryLock : Nat → Bool) (timeoutMs : Nat) :
    (runPollPhase tryLock timeoutMs).1 = ETIMEDOUT ↔
      ∀ i, i ≤ timeoutMs → tryLock i = false := by
  rcases h : pollLoop tryLock 0 timeoutMs with _ | j
  · have hall := (pollLoop_eq_none_iff tryLock timeoutMs 0).mp h
    simp only [runPollPhase, h]
    by_cases hb : tryLock timeoutMs = true
    · rw [if_pos hb]
      constructor
      · intro hc
        have hc' : (0 : Int) = ETIMEDOUT := hc
        norm_num [ETIMEDOUT] at hc'
      · intro hall2
        have h2 := hall2 timeoutMs le_rfl
        rw [hb] at h2
        cases h2
    · have hb' : tryLock timeoutMs = false := by simpa using hb
      rw [if_neg hb]
      constructor
      · intro _ i hi
        rcases Nat.lt_or_ge i timeoutMs with hlt | hge
        · exact hall i (Nat.zero_le i) (by omega)
        · have hEq : i = timeoutMs := by omega
          rw [hEq]
          exact hb'
      · intro _
        rfl
  · have hs := pollLoop_eq_some tryLock timeoutMs 0 j h
    simp only [runPollPhase, h]
    constructor
    · intro hc
      have hc' : (0 : Int) = ETIMEDOUT := hc
      norm_num [ETIMEDOUT] at hc'
    · intro hall
      have h1 := hall j (by omega)
      rw [hs.1] at h1
      cases h1

theorem wrap32_eq_self (x : Int) (h0 : -2147483648 ≤ x) (h1 : x < 2147483648) :
    wrap32 x = x := by
  unfold wrap32
  omega

theorem computeRemainingMs_nonpos (a now : Timespec)
    (ha0 : 0 ≤ a.tv_nsec) (ha1 : a.tv_nsec < 1000000000)
    (hn0 : 0 ≤ now.tv_nsec) (hn1 : now.tv_nsec < 1000000000)
    (hle : a.tv_sec < now.tv_sec ∨
      (a.tv_sec = now.tv_sec ∧ a.tv_nsec ≤ now.tv_nsec))
    (hfit : now.tv_sec - a.tv_sec < 2147483648) :
    computeRemainingMs a now ≤ 0 := by
  simp only [computeRemainingMs]
  rw [wrap32_eq_self (a.tv_nsec - now.tv_nsec) (by omega) (by omega),
    wrap32_eq_self (a.tv_sec - now.tv_sec) (by omega) (by omega),
    wrap32_eq_self (a.tv_sec - now.tv_sec - 1) (by omega) (by omega),
    wrap32_eq_self (a.tv_nsec - now.tv_nsec + 1000000000) (by omega) (by omega)]
  split_ifs with h
  · rw [Int.tdiv_eq_ediv (by omega) (by norm_num)]
    omega
  · rw [Int.tdiv_eq_ediv (by omega) (by norm_num)]
    omega

/-- Claim C4, counterexample: the deadline (0 s, 0 ns) — the epoch — lies
far before the sampled current time (3000000000 s, 0 ns), yet the
64-bit second difference -3000000000 narrows through the 32-bit `long`
`sec_diff` to +1294967296, so `total_ms64` is positive and the code falls
into the poll phase: with an uncontended mutex (and the uninitialized
loop bound happening to be 0) it performs one `TryEnterCriticalSection`
attempt and returns 0 — not the claimed immediate ETIMEDOUT with zero
attempts. -/
theorem c4_counterexample :
    xpthread_mutex_timedlock (fun _ => true) ⟨3000000000, 0⟩ (some ⟨0, 0⟩) 0 = (0, 1)
    ∧ ((0, 1) : Int × Nat) ≠ (ETIMEDOUT, 0) := by
  decide

/-- Claim C4 as amended: for every deadline at or before the sampled
current time (both timespecs normalized) whose second difference fits the
32-bit `long` holding `sec_diff` (now minus deadline below `2 ^ 31`
seconds), `xpthread_mutex_timedlock` returns ETIMEDOUT having performed
zero `TryEnterCriticalSection` attempts — whatever the scheduler would
have answered and whatever the uninitialized loop bound holds. -/
theorem c4_past_deadline_immediate_timeout (tryLock : Nat → Bool)
    (timeoutMsJunk : Nat) (now a : Timespec)
    (ha0 : 0 ≤ a.tv_nsec) (ha1 : a.tv_nsec < 1000000000)
    (hn0 : 0 ≤ now.tv_nsec) (hn1 : now.tv_nsec < 1000000000)
    (hle : a.tv_sec < now.tv_sec ∨
      (a.tv_sec = now.tv_sec ∧ a.tv_nsec ≤ now.tv_nsec))
    (hfit : now.tv_sec - a.tv_sec < 2147483648) :
    xpthread_mutex_timedlock tryLock now (some a) timeoutMsJunk = (ETIMEDOUT, 0) := by
  have h := computeRemainingMs_nonpos a now ha0 ha1 hn0 hn1 hle hfit
  simp only [xpthread_mutex_timedlock]
  rw [if_pos h]

/-- Witness for the amended C4 at a concrete input: deadline (9 s, 500 ns)
against current time (10 s, 0 ns) — a one-second difference, well within
32 bits — with a mutex that every try-lock attempt would acquire and junk
loop bound 7: still an immediate timeout with zero attempts. -/
theorem c4_witness :
    xpthread_mutex_timedlock (fun _ => true) ⟨10, 0⟩ (some ⟨9, 500⟩) 7 = (ETIMEDOUT, 0) :=
  c4_past_deadline_immediate_timeout (fun _ => true) 7 ⟨10, 0⟩ ⟨9, 500⟩
    (by decide) (by decide) (by decide) (by decide) (Or.inl (by decide)) (by decide)

/-- Claim C8, counterexample: with a null `abstime` and a mutex no attempt
ever acquires, `xpthread_mutex_timedlock` DOES return ETIMEDOUT (after
exhausting the 0xFFFFFFFF-millisecond sentinel budget), refuting "it never
returns timed_out". -/
theorem c8_counterexample :
    (xpthread_mutex_timedlock (fun _ => false) ⟨0, 0⟩ none 0).1 = ETIMEDOUT := by
  show (runPollPhase (fun _ => false) INFINITE).1 = ETIMEDOUT
  rw [runPollPhase_timedout_iff]
  intro i _
  rfl

/-- Claim C8 as amended: with a null `abstime`, `xpthread_mutex_timedlock`
performs no deadline computation (the result is exactly the poll phase
with the INFINITE sentinel as bound, independent of the sampled time and
of the uninitialized variable), returns ok iff one of its 2^32 try-lock
attempts (4294967295 polled plus one final) acquires the mutex, and
returns ETIMEDOUT — rather than never — iff all 2^32 attempts fail. -/
theorem c8_null_abstime_amended (tryLock : Nat → Bool) (now : Timespec)
    (timeoutMsJunk : Nat) :
    xpthread_mutex_timedlock tryLock now none timeoutMsJunk = runPollPhase tryLock INFINITE
    ∧ ((xpthread_mutex_timedlock tryLock now none timeoutMsJunk).1 = ETIMEDOUT ↔
        ∀ i, i < 4294967296 → tryLock i = false)
    ∧ ((xpthread_mutex_timedlock tryLock now none timeoutMsJunk).1 = 0 ↔
        ∃ i, i < 4294967296 ∧ tryLock i = true) := by
  have hbound : ∀ i : Nat, i ≤ INFINITE ↔ i < 4294967296 := by
    intro i
    simp only [INFINITE]
    omega
  have hiff : (runPollPhase tryLock INFINITE).1 = ETIMEDOUT ↔
      ∀ i, i < 4294967296 → tryLock i = false := by
    rw [runPollPhase_timedout_iff]
    constructor
    · intro hall i hi
      exact hall i ((hbound i).mpr hi)
    · intro hall i hi
      exact hall i ((hbound i).mp hi)
  refine ⟨rfl, hiff, ?_⟩
  show (runPollPhase tryLock INFINITE).1 = 0 ↔ _
  rcases runPollPhase_status tryLock INFINITE with h | h
  · rw [h]
    simp only [eq_self_iff_true, true_iff]
    have hne : ¬((runPollPhase tryLock INFINITE).1 = ETIMEDOUT) := by
      rw [h]
      norm_num [ETIMEDOUT]
    have hnall := (not_iff_not.mpr hiff).mp hne
    push_neg at hnall
    obtain ⟨i, hi, hti⟩ := hnall
    exact ⟨i, hi, by simpa using hti⟩
  · rw [h]
    constructor
    · intro hc
      exact absurd hc (by norm_num [ETIMEDOUT])
    · rintro ⟨i, hi, hti⟩
      have hall := hiff.mp h
      have h1 := hall i hi
      rw [hti] at h1
      cases h1

/-- Claim C5 as amended: every status-returning operation of the emulated
backend returns within the specified closed status set extended with the
bare failure indicator -1; the value -1 is produced only by
`xpthread_once` (exactly when the engaged wrapper fails, i.e. a null
initialiser on a not-yet-completed control) and by `xpthread_detach`
(exactly when the underlying `CloseHandle` fails); every other operation
stays within the specified set. -/
theorem c5_status_set_amended :
    (∀ (st : OnceState) (fn : Bool), (xpthread_once st fn).1 ∈ extStatusSet
        ∧ ((xpthread_once st fn).1 = -1 ↔ st = OnceState.pending ∧ fn = false))
    ∧ (∀ ok : Bool, xpthread_detach ok ∈ extStatusSet
        ∧ (xpthread_detach ok = -1 ↔ ok = false))
    ∧ (∀ c s : Bool, xpthread_create c s ∈ statusSet)
    ∧ (∀ (j : Option XpthreadWinCtx) (r : Bool) (m : Nat) (t : XpthreadWinCtx) (e : Nat),
        (xpthread_join j r m t e).2 ∈ statusSet)
    ∧ (∀ (s : Int) (o : Bool) (c : Int), (xpthread_setcancelstate s o c).1 ∈ statusSet)
    ∧ (∀ (t : Int) (o : Bool) (c : Int), (xpthread_setcanceltype t o c).1 ∈ statusSet)
    ∧ (∀ (th : Bool) (tgt : XpthreadWinCtx), (xpthread_cancel th tgt).1 ∈ statusSet)
    ∧ (∀ ok : Bool, xpthread_mutex_init ok ∈ statusSet)
    ∧ xpthread_mutex_destroy ∈ statusSet
    ∧ xpthread_mutex_lock ∈ statusSet
    ∧ xpthread_mutex_unlock ∈ statusSet
    ∧ (∀ ok : Bool, xpthread_mutex_trylock ok ∈ statusSet)
    ∧ (∀ (tl : Nat → Bool) (now : Timespec) (ab : Option Timespec) (junk : Nat),
        (xpthread_mutex_timedlock tl now ab junk).1 ∈ statusSet)
    ∧ (∀ p : Bool, (xpthread_mutex_getprioceiling p).1 ∈ statusSet)
    ∧ (∀ (p : Int) (o : Bool), (xpthread_mutex_setprioceiling p o).1 ∈ statusSet)
    ∧ xpthread_mutex_consistent ∈ statusSet := by
  refine ⟨?_, ?_, ?_, ?_, ?_, ?_, ?_, ?_, ?_, ?_, ?_, ?_, ?_, ?_, ?_, ?_⟩
  · intro st fn
    cases st <;> cases fn <;> exact ⟨by decide, by decide⟩
  · intro ok
    cases ok <;> exact ⟨by decide, by decide⟩
  · intro c s
    cases c <;> cases s <;> decide
  · intro j r m t e
    rcases j with _ | c <;> cases r <;> exact (by decide : (0 : Int) ∈ statusSet)
  · intro s o c
    exact (by decide : (0 : Int) ∈ statusSet)
  · intro t o c
    exact (by decide : (0 : Int) ∈ statusSet)
  · intro th tgt
    cases th
    · exact (by decide : EINVAL ∈ statusSet)
    · exact (by decide : (0 : Int) ∈ statusSet)
  · intro ok
    cases ok <;> decide
  · decide
  · decide
  · decide
  · intro ok
    cases ok <;> decide
  · intro tl now ab junk
    have hmem : ∀ n : Nat, (runPollPhase tl n).1 ∈ statusSet := by
      intro n
      rcases runPollPhase_status tl n with h | h <;> rw [h] <;> decide
    rcases ab with _ | a
    · exact hmem INFINITE
    · simp only [xpthread_mutex_timedlock]
      by_cases h : computeRemainingMs a now ≤ 0
      · rw [if_pos h]
        decide
      · rw [if_neg h]
        exact hmem junk
  · intro p
    cases p <;> decide
  · intro p o
    exact (by decide : (0 : Int) ∈ statusSet)
  · decide

/-- Claim C7: the (seconds, nanoseconds) pair produced by the time source
is normalized: for every 64-bit platform tick count, the nanoseconds field
of `xpthread_get_realtime` lies in [0, 1e9). -/
theorem c7_realtime_nsec_normalized (quadPart : Nat) :
    0 ≤ (xpthread_get_realtime quadPart).tv_nsec ∧
    (xpthread_get_realtime quadPart).tv_nsec < 1000000000 := by
  simp only [xpthread_get_realtime]
  omega

/-- Claim C1 evaluated on the code: in the sequence create, then
`xpthread_exit 42` inside the entry function, then join with a non-null
`retval` out-pointer performed by a thread with no library context (e.g.
`main`), the target's side-channel slot still holds 0 (exit never writes
it) and `*retval` keeps its prior contents 999 instead of receiving 42;
moreover a joiner that does have a context receives its OWN slot's value,
independent of the target. -/
theorem c1_join_does_not_deliver_exit_value :
    (thread_wrapper callocCtx (EntryBehavior.exits 42)).1.retval = 0
    ∧ xpthread_join none true 999 (thread_wrapper callocCtx (EntryBehavior.exits 42)).1
        (thread_wrapper callocCtx (EntryBehavior.exits 42)).2 = (999, 0)
    ∧ (∀ (j : XpthreadWinCtx) (m : Nat) (t : XpthreadWinCtx) (e : Nat),
        xpthread_join (some j) true m t e = (j.retval, 0)) :=
  ⟨rfl, rfl, fun _ _ _ _ => rfl⟩

/-- Claim C2 evaluated on the code: with a deadline one full second in the
future (computed remaining time 1000 ms) and a never-acquirable mutex, the
number of `TryEnterCriticalSection` calls made by
`xpthread_mutex_timedlock` is `timeoutMsJunk + 1` — the loop bound is the
uninitialized `timeout_ms` variable, not the computed remaining duration:
with junk 0 the call times out after a single attempt, with junk 5 after
six. -/
theorem c2_timedlock_loop_bound_is_uninitialized :
    xpthread_mutex_timedlock (fun _ => false) ⟨0, 0⟩ (some ⟨1, 0⟩) 0 = (ETIMEDOUT, 1)
    ∧ xpthread_mutex_timedlock (fun _ => false) ⟨0, 0⟩ (some ⟨1, 0⟩) 5 = (ETIMEDOUT, 6) := by
  decide

/-- Claim C3 evaluated on the code: `xpthread_cancel` on a valid handle
returns 0 but leaves the target context — in particular its
`cancel_requested` flag — completely unchanged, so a subsequent
`xpthread_testcancel` in the target does not terminate it; and
`xpthread_testcancel` fires on a set flag while never consulting the
cancellation state installed by `xpthread_setcancelstate` (the state is
not even an input of the code's check). -/
theorem c3_cancel_sets_no_flag_and_testcancel_ignores_state :
    (∀ target : XpthreadWinCtx, xpthread_cancel true target = (0, target))
    ∧ xpthread_testcancel (some (xpthread_cancel true callocCtx).2) = false
    ∧ xpthread_testcancel (some { callocCtx with cancel_requested := true }) = true :=
  ⟨fun _ => rfl, rfl, rfl⟩

/-- Claim C5, counterexample: `xpthread_detach` returns -1 when the
underlying `CloseHandle` call fails, and -1 is outside the specified
status set. -/
theorem c5_counterexample :
    xpthread_detach false = -1 ∧ (-1 : Int) ∉ statusSet := by
  decide

/-- Claim C6, counterexample: `xpthread_mutex_getprioceiling` called with
a null out-pointer returns EINVAL — an error, not success. -/
theorem c6_counterexample :
    xpthread_mutex_getprioceiling false = (EINVAL, none) ∧ EINVAL ≠ 0 := by
  decide

/-- Claim C6 as amended: on the emulated backend the priority-ceiling and
robustness calls are inert — with a non-null out-pointer
`xpthread_mutex_getprioceiling` succeeds reporting ceiling 0,
`xpthread_mutex_setprioceiling` always succeeds writing 0 through a
non-null `old_ceiling`, and `xpthread_mutex_consistent` always succeeds —
except that `xpthread_mutex_getprioceiling` returns EINVAL when its
out-pointer is null. -/
theorem c6_prioceiling_amended :
    xpthread_mutex_getprioceiling true = (0, some 0)
    ∧ (∀ p : Int, xpthread_mutex_setprioceiling p true = (0, some 0))
    ∧ (∀ p : Int, xpthread_mutex_setprioceiling p false = (0, none))
    ∧ xpthread_mutex_consistent = 0
    ∧ xpthread_mutex_getprioceiling false = (EINVAL, none) :=
  ⟨rfl, fun _ => rfl, fun _ => rfl, rfl, rfl⟩

/-- Claim C9, counterexample: `xpthread_once` invoked with a null
initialiser on an already-completed control returns 0, not -1 (the
platform once primitive skips the wrapper entirely and reports
success). -/
theorem c9_counterexample :
    xpthread_once OnceState.done false = (0, OnceState.done, false)
    ∧ (xpthread_once OnceState.done false).1 ≠ -1 := by
  decide

/-- Claim C9 as amended: `xpthread_once` with a null initialiser returns
-1 without running any initialiser when the control has not yet
completed; on an already-completed control it returns 0 (initialiser not
run); and with a non-null initialiser whose wrapped execution is engaged
it runs the initialiser and returns 0. -/
theorem c9_once_null_fn_amended :
    xpthread_once OnceState.pending false = (-1, OnceState.pending, false)
    ∧ xpthread_once OnceState.pending true = (0, OnceState.done, true)
    ∧ xpthread_once OnceState.done false = (0, OnceState.done, false) := by
  decide

/-- Claim C10: on the emulated backend `xpthread_cancel` returns EINVAL
for a null handle and 0 for a non-null handle, in both cases without
blocking or modifying the target (it is a pure, immediately-returning
function of its inputs, leaving the target context unchanged). -/
theorem c10_cancel_status (target : XpthreadWinCtx) :
    xpthread_cancel false target = (EINVAL, target)
    ∧ xpthread_cancel true target = (0, target) :=
  ⟨rfl, rfl⟩

end XPThread
